import Mathlib

/-!
Shallow embedding of the ProSprint core pipeline (prompt processor,
action executor, integration adapters, orchestrator, activity logger),
translated from the Python sources under `prosprint/`.
-/

namespace ProSprint

/-- Substring test on character lists: `needle` occurs contiguously in the
list. Models Python's `needle in hay` on strings. -/
def containsSeq (needle : List Char) : List Char → Bool
  | [] => needle.isEmpty
  | c :: rest => needle.isPrefixOf (c :: rest) || containsSeq needle rest

/-- Python `needle in hay` for strings. -/
def strContains (hay needle : String) : Bool :=
  containsSeq needle.data hay.data

/-- Python's str.lower, modelled character-wise over the string's
characters (the keyword matching only involves ASCII). -/
def strLower (s : String) : String := String.mk (s.data.map Char.toLower)

/-- Python truthiness of a string: non-empty. -/
def truthy (s : String) : Bool := !s.isEmpty

/-- `ActionType` from `prosprint/core/action.py`. -/
inductive ActionType
  | crm_update
  | send_email
  | slack_post
  | draft_report
  | summarize_document
  | custom
deriving DecidableEq

/-- `ActionStatus` from `prosprint/core/action.py`. -/
inductive ActionStatus
  | pending
  | approved
  | executing
  | completed
  | failed
  | cancelled
deriving DecidableEq

/-- Action parameters: an insertion-ordered mapping of string keys to
string values (the fallback path and the adapters only ever use string
values). -/
abbrev Params := List (String × String)

/-- A value in an adapter result mapping: either a string, or a nested
parameters mapping (the configured CRM branch stores `action.parameters`
under the key `data`). -/
inductive Value
  | str (s : String)
  | params (p : Params)
deriving DecidableEq

/-- An adapter result: mapping of string keys to values. -/
abbrev ResultMap := List (String × Value)

/-- The `Action` model from `prosprint/core/action.py`. Timestamps are
modelled as `Nat` (their values play no role in the verified claims). -/
structure Action where
  id : String
  type : ActionType
  description : String
  parameters : Params := []
  status : ActionStatus := ActionStatus.pending
  created_at : Nat := 0
  executed_at : Option Nat := none
  result : Option ResultMap := none
  error : Option String := none
deriving DecidableEq

/-- Python `action.parameters.get(key, dflt)`. -/
def getParam (a : Action) (key dflt : String) : String :=
  (a.parameters.lookup key).getD dflt

/-- The `Config` object from `prosprint/config.py`: credentials read from
the environment, empty string when unset. -/
structure Config where
  openai_api_key : String := ""
  slack_token : String := ""
  slack_channel : String := ""
  smtp_host : String := ""
  smtp_port : String := "587"
  smtp_user : String := ""
  smtp_password : String := ""
  crm_api_key : String := ""
  crm_api_url : String := ""

/-- `CRMIntegration.execute` from `prosprint/integrations/crm.py`:
simulated result when api key or url is missing, otherwise a completed
result echoing the parameters under `data`. Never raises. -/
def CRMIntegration.execute (cfg : Config) (a : Action) : Except String ResultMap :=
  if !truthy cfg.crm_api_key || !truthy cfg.crm_api_url then
    Except.ok [("status", Value.str "simulated"),
      ("message", Value.str "CRM action simulated (no credentials configured)"),
      ("action", Value.str (getParam a "action" "update")),
      ("details", Value.str (getParam a "details" ""))]
  else
    Except.ok [("status", Value.str "completed"),
      ("message", Value.str "CRM updated successfully"),
      ("data", Value.params a.parameters)]

/-- `EmailIntegration.execute` from `prosprint/integrations/email.py`.
The SMTP send is external: `smtpSend` is its outcome (`Except.error e`
models `smtplib` raising with message `e`). With host, user or password
missing the adapter returns a simulated result without touching SMTP. -/
def EmailIntegration.execute (cfg : Config) (smtpSend : Except String Unit)
    (a : Action) : Except String ResultMap :=
  let recipient := getParam a "recipient" ""
  let subject := getParam a "subject" "ProSprint AI Notification"
  if !(truthy cfg.smtp_host && truthy cfg.smtp_user && truthy cfg.smtp_password) then
    Except.ok [("status", Value.str "simulated"),
      ("message", Value.str ("Email simulated (no SMTP configured): " ++ subject ++ " to " ++ recipient)),
      ("recipient", Value.str recipient),
      ("subject", Value.str subject)]
  else
    match smtpSend with
    | Except.ok _ =>
      Except.ok [("status", Value.str "completed"),
        ("message", Value.str ("Email sent to " ++ recipient)),
        ("recipient", Value.str recipient),
        ("subject", Value.str subject)]
    | Except.error e => Except.error ("Failed to send email: " ++ e)

/-- `SlackIntegration.execute` from `prosprint/integrations/slack.py`:
simulated result when the token is missing, otherwise a completed
result. Never raises. -/
def SlackIntegration.execute (cfg : Config) (a : Action) : Except String ResultMap :=
  let channel := getParam a "channel" cfg.slack_channel
  let message := getParam a "message" ""
  if !truthy cfg.slack_token then
    Except.ok [("status", Value.str "simulated"),
      ("message", Value.str ("Slack message simulated (no token configured): " ++ message ++ " to " ++ channel)),
      ("channel", Value.str channel),
      ("text", Value.str message)]
  else
    Except.ok [("status", Value.str "completed"),
      ("message", Value.str ("Posted to Slack channel " ++ channel)),
      ("channel", Value.str channel),
      ("text", Value.str message)]

/-- Modelled from the spec: the file `prosprint/integrations/document.py`
is missing from the sources (only its import in the executor and its
tests exist). Per the spec, an adapter whose credentials are absent
returns a result marked `status: "simulated"`; when configured it
performs the real call (outcome `oracle`), returning `status:
"completed"` on success and raising on failure; the draft operation's
result carries the generated artifact under the key `report`. The
credential is taken to be the language-model key. -/
def DocumentIntegration.draft_report (cfg : Config) (oracle : Except String String)
    (a : Action) : Except String ResultMap :=
  if !truthy cfg.openai_api_key then
    Except.ok [("status", Value.str "simulated"),
      ("report", Value.str (getParam a "content" ""))]
  else
    match oracle with
    | Except.ok artifact =>
      Except.ok [("status", Value.str "completed"), ("report", Value.str artifact)]
    | Except.error e => Except.error e

/-- Modelled from the spec: the summarize operation of the missing
`prosprint/integrations/document.py`, carrying the artifact under the
key `summary`; simulated when the credential is absent, raising on a
failed real call. -/
def DocumentIntegration.summarize (cfg : Config) (oracle : Except String String)
    (a : Action) : Except String ResultMap :=
  if !truthy cfg.openai_api_key then
    Except.ok [("status", Value.str "simulated"),
      ("summary", Value.str (getParam a "text" ""))]
  else
    match oracle with
    | Except.ok artifact =>
      Except.ok [("status", Value.str "completed"), ("summary", Value.str artifact)]
    | Except.error e => Except.error e

/-- The external environment an `ActionExecutor` runs against: the
configuration plus the outcomes of the external calls the configured
adapters would make. -/
structure ExecEnv where
  cfg : Config
  smtpSend : Except String Unit := Except.ok ()
  draftOracle : Except String String := Except.ok ""
  summarizeOracle : Except String String := Except.ok ""

/-- The dispatch chain in the `try` block of `ActionExecutor.execute`:
maps the action type to its adapter call; the final `else` branch
(reached by `custom`) builds a fixed completed result with no adapter
involved. -/
def dispatch (env : ExecEnv) (a : Action) : Except String ResultMap :=
  match a.type with
  | ActionType.crm_update => CRMIntegration.execute env.cfg a
  | ActionType.send_email => EmailIntegration.execute env.cfg env.smtpSend a
  | ActionType.slack_post => SlackIntegration.execute env.cfg a
  | ActionType.draft_report => DocumentIntegration.draft_report env.cfg env.draftOracle a
  | ActionType.summarize_document => DocumentIntegration.summarize env.cfg env.summarizeOracle a
  | ActionType.custom =>
    Except.ok [("status", Value.str "completed"),
      ("message", Value.str "Custom action executed")]

/-- A record appended to the activity log by `ActivityLogger.log_action`
(`prosprint/utils/logger.py`). -/
structure LogEntry where
  timestamp : Nat
  action_id : String
  action_type : ActionType
  description : String
  status : ActionStatus
  parameters : Params
  result : Option ResultMap
  error : Option String
deriving DecidableEq

/-- The log record built from an action in `ActivityLogger.log_action`. -/
def logEntryOf (a : Action) : LogEntry :=
  { timestamp := 0
    action_id := a.id
    action_type := a.type
    description := a.description
    status := a.status
    parameters := a.parameters
    result := a.result
    error := a.error }

/-- `ActionExecutor.execute` from `prosprint/core/executor.py`,
parametric in the dispatch outcome: set status EXECUTING and
`executed_at`, run the dispatch; on a normal return store `result` and
set COMPLETED, on a raised error store its message in `error` and set
FAILED (the exception is swallowed). Either branch then logs the
action; the produced log entry is returned alongside. -/
def executeWith (d : Action → Except String ResultMap) (a : Action) :
    Action × LogEntry :=
  let a1 := { a with status := ActionStatus.executing, executed_at := some 0 }
  let a2 :=
    match d a1 with
    | Except.ok r => { a1 with status := ActionStatus.completed, result := some r }
    | Except.error e => { a1 with status := ActionStatus.failed, error := some e }
  (a2, logEntryOf a2)

/-- `ActionExecutor.execute` against a concrete environment. -/
def ActionExecutor.execute (env : ExecEnv) (a : Action) : Action × LogEntry :=
  executeWith (dispatch env) a

/-- `ActionExecutor.execute_batch`, parametric in the dispatch outcome:
iterate over the actions strictly in input order, executing each and
collecting results (and the log entries written along the way). -/
def execute_batchWith (d : Action → Except String ResultMap) :
    List Action → List Action × List LogEntry
  | [] => ([], [])
  | a :: rest =>
    let r := executeWith d a
    let rs := execute_batchWith d rest
    (r.1 :: rs.1, r.2 :: rs.2)

/-- `ActionExecutor.execute_batch` against a concrete environment. -/
def ActionExecutor.execute_batch (env : ExecEnv) (actions : List Action) :
    List Action × List LogEntry :=
  execute_batchWith (dispatch env) actions

/-- A well-formed element of the JSON array returned by the language
model: an object carrying a `type` string (validated later), a
description, and a parameters mapping (defaulted to empty when
absent). -/
structure RawAction where
  type_str : String
  description : String
  parameters : Params
deriving DecidableEq

/-- Outcome of the language-model call in `PromptProcessor.process`:
`failure` covers a failed call, an unparsable response, or a response
whose shape is not an array of well-formed objects (all raise inside
the `try` block); `parsed` is a successfully parsed array whose
elements still face `ActionType` validation. -/
inductive LLMOutcome
  | failure (msg : String)
  | parsed (items : List RawAction)

/-- `ActionType(value)` on a string, as Python's enum lookup: `none`
models the `ValueError` for a value outside the closed set. -/
def actionTypeOfString : String → Option ActionType
  | "crm_update" => some ActionType.crm_update
  | "send_email" => some ActionType.send_email
  | "slack_post" => some ActionType.slack_post
  | "draft_report" => some ActionType.draft_report
  | "summarize_document" => some ActionType.summarize_document
  | "custom" => some ActionType.custom
  | _ => none

/-- The per-element construction loop of the primary path: each element
becomes an Action with a fresh id and default status; one invalid
`type` raises, discarding the whole batch (`none`). -/
def validateItems : List RawAction → Option (List Action)
  | [] => some []
  | item :: rest =>
    match actionTypeOfString item.type_str with
    | none => none
    | some t =>
      match validateItems rest with
      | none => none
      | some acts =>
        some ({ id := "uuid", type := t, description := item.description,
                parameters := item.parameters : Action} :: acts)

/-- A single fallback action of the email keyword group
(`PromptProcessor._process_fallback`). -/
def emailFallbackAction (prompt : String) : Action :=
  { id := "uuid-email", type := ActionType.send_email,
    description := "Send email based on: " ++ prompt,
    parameters := [("subject", "Email from ProSprint AI"),
                   ("body", prompt),
                   ("recipient", "recipient@example.com")] }

/-- A single fallback action of the slack keyword group. -/
def slackFallbackAction (cfg : Config) (prompt : String) : Action :=
  { id := "uuid-slack", type := ActionType.slack_post,
    description := "Post to Slack: " ++ prompt,
    parameters := [("channel", if truthy cfg.slack_channel then cfg.slack_channel else "#general"),
                   ("message", prompt)] }

/-- A single fallback action of the crm keyword group. -/
def crmFallbackAction (prompt : String) : Action :=
  { id := "uuid-crm", type := ActionType.crm_update,
    description := "Update CRM based on: " ++ prompt,
    parameters := [("action", "update"), ("details", prompt)] }

/-- A single fallback action of the report keyword group. -/
def reportFallbackAction (prompt : String) : Action :=
  { id := "uuid-report", type := ActionType.draft_report,
    description := "Draft report: " ++ prompt,
    parameters := [("title", "Report from ProSprint AI"), ("content", prompt)] }

/-- A single fallback action of the summarize keyword group. -/
def summarizeFallbackAction (prompt : String) : Action :=
  { id := "uuid-summarize", type := ActionType.summarize_document,
    description := "Summarize: " ++ prompt,
    parameters := [("text", prompt)] }

/-- The custom action appended when no keyword group matches. -/
def customFallbackAction (prompt : String) : Action :=
  { id := "uuid-custom", type := ActionType.custom,
    description := "Execute custom action: " ++ prompt,
    parameters := [("prompt", prompt)] }

/-- Keyword test of the email group over the lowercased prompt; the
Python condition `"email" in p or "send" in p and "mail" in p` binds
`and` tighter than `or`. -/
def emailCond (pl : String) : Bool :=
  strContains pl "email" || (strContains pl "send" && strContains pl "mail")

/-- Keyword test of the slack group. -/
def slackCond (pl : String) : Bool :=
  strContains pl "slack" || strContains pl "post"

/-- Keyword test of the crm group. -/
def crmCond (pl : String) : Bool :=
  strContains pl "crm" || (strContains pl "update" && strContains pl "contact")

/-- Keyword test of the report group. -/
def reportCond (pl : String) : Bool :=
  strContains pl "report" || strContains pl "draft"

/-- Keyword test of the summarize group. -/
def summarizeCond (pl : String) : Bool :=
  strContains pl "summarize" || strContains pl "summary"

/-- `PromptProcessor._process_fallback`: each keyword group
independently appends one action; when the list stays empty a single
custom action wrapping the prompt is produced. -/
def PromptProcessor.process_fallback (cfg : Config) (prompt : String) : List Action :=
  let pl := strLower prompt
  let actions :=
    (if emailCond pl then [emailFallbackAction prompt] else []) ++
    (if slackCond pl then [slackFallbackAction cfg prompt] else []) ++
    (if crmCond pl then [crmFallbackAction prompt] else []) ++
    (if reportCond pl then [reportFallbackAction prompt] else []) ++
    (if summarizeCond pl then [summarizeFallbackAction prompt] else [])
  if actions.isEmpty then [customFallbackAction prompt] else actions

/-- `PromptProcessor.process`: without an api key there is no client and
the fallback runs directly; otherwise the language-model path runs and
any failure of call, parse or type validation falls back. -/
def PromptProcessor.process (cfg : Config) (llm : LLMOutcome) (prompt : String) :
    List Action :=
  if !truthy cfg.openai_api_key then
    PromptProcessor.process_fallback cfg prompt
  else
    match llm with
    | LLMOutcome.failure _ => PromptProcessor.process_fallback cfg prompt
    | LLMOutcome.parsed items =>
      match validateItems items with
      | some acts => acts
      | none => PromptProcessor.process_fallback cfg prompt

/-- `ProSprintAI.process_prompt` from `prosprint/core/prosprint.py`:
process the prompt; on an empty action list return immediately; when
approval is required and declined, set every action's status to
CANCELLED and return without executing (no log entries); otherwise run
the batch. The returned pair is the action list and the log entries
written during the run. -/
def ProSprintAI.process_prompt (cfg : Config) (llm : LLMOutcome) (env : ExecEnv)
    (prompt : String) (autoApprove userApproves : Bool) :
    List Action × List LogEntry :=
  let actions := PromptProcessor.process cfg llm prompt
  if actions.isEmpty then ([], [])
  else if !autoApprove && !userApproves then
    (actions.map (fun a => { a with status := ActionStatus.cancelled }), [])
  else
    ActionExecutor.execute_batch env actions

/-- The per-day log files on disk: day index to file content, `none`
when that day's file does not exist. -/
abbrev LogFiles := Nat → Option (List LogEntry)

/-- `ActivityLogger` from `prosprint/utils/logger.py`: `self.log_file`
is fixed at construction from the current date, so the logger carries
its construction day. -/
structure ActivityLogger where
  day : Nat

/-- `ActivityLogger.log_action`: append one record to the logger's
day file, creating the file when absent. -/
def ActivityLogger.log_action (lg : ActivityLogger) (files : LogFiles)
    (a : Action) : LogFiles :=
  fun d => if d = lg.day then some ((files lg.day).getD [] ++ [logEntryOf a]) else files d

/-- Python `logs[-limit:]` for a natural `limit`: with `limit = 0` the
slice `[-0:]` is `[0:]`, the whole list; with `limit > 0` it is the
last `limit` elements. -/
def sliceLast (logs : List LogEntry) (limit : Nat) : List LogEntry :=
  if limit = 0 then logs else logs.drop (logs.length - limit)

/-- `ActivityLogger.get_recent_logs`: empty when the logger's day file
does not exist, otherwise the `[-limit:]` slice of its records. Only
the logger's own day file is read. -/
def ActivityLogger.get_recent_logs (lg : ActivityLogger) (files : LogFiles)
    (limit : Nat) : List LogEntry :=
  match files lg.day with
  | none => []
  | some logs => sliceLast logs limit

/-- The approval/lifecycle state machine of the spec: PENDING/APPROVED →
EXECUTING → COMPLETED or FAILED, with CANCELLED available before
execution begins. -/
def stepAllowed : ActionStatus → ActionStatus → Bool
  | ActionStatus.pending, ActionStatus.approved => true
  | ActionStatus.pending, ActionStatus.executing => true
  | ActionStatus.pending, ActionStatus.cancelled => true
  | ActionStatus.approved, ActionStatus.executing => true
  | ActionStatus.approved, ActionStatus.cancelled => true
  | ActionStatus.executing, ActionStatus.completed => true
  | ActionStatus.executing, ActionStatus.failed => true
  | _, _ => false

/-- Terminal statuses of the lifecycle. -/
def terminalStatus : ActionStatus → Bool
  | ActionStatus.completed => true
  | ActionStatus.failed => true
  | ActionStatus.cancelled => true
  | _ => false

/-- The statuses `ActionExecutor.execute` assigns to its action, in
order: EXECUTING first (unconditionally, with no guard on the current
status), then the terminal status of the branch taken. -/
def executeStatusTrace (d : Action → Except String ResultMap) (a : Action) :
    List ActionStatus :=
  [ActionStatus.executing, (executeWith d a).1.status]

/-- The status history of each action over one orchestrator run: its
status at creation followed by every status assigned to it during the
run (CANCELLED on decline; the executor's trace otherwise). -/
def runStatusHistories (cfg : Config) (llm : LLMOutcome) (env : ExecEnv)
    (prompt : String) (autoApprove userApproves : Bool) :
    List (List ActionStatus) :=
  let actions := PromptProcessor.process cfg llm prompt
  if actions.isEmpty then []
  else if !autoApprove && !userApproves then
    actions.map (fun a => [a.status, ActionStatus.cancelled])
  else
    actions.map (fun a => a.status :: executeStatusTrace (dispatch env) a)

/-- Per-type test that the adapter the executor would dispatch this
type to is missing its required credentials; `custom` dispatches to no
adapter, so no credential condition exists for it. -/
def adapterUnconfigured (cfg : Config) : ActionType → Bool
  | ActionType.crm_update => !truthy cfg.crm_api_key || !truthy cfg.crm_api_url
  | ActionType.send_email => !(truthy cfg.smtp_host && truthy cfg.smtp_user && truthy cfg.smtp_password)
  | ActionType.slack_post => !truthy cfg.slack_token
  | ActionType.draft_report => !truthy cfg.openai_api_key
  | ActionType.summarize_document => !truthy cfg.openai_api_key
  | ActionType.custom => false

/-- Number of keyword groups the lowercased prompt matches in the
fallback path. -/
def numMatched (pl : String) : Nat :=
  (if emailCond pl then 1 else 0) + (if slackCond pl then 1 else 0) +
  (if crmCond pl then 1 else 0) + (if reportCond pl then 1 else 0) +
  (if summarizeCond pl then 1 else 0)

/-- A fully unconfigured environment (demo mode: no credentials set). -/
def demoEnv : ExecEnv := { cfg := {} }

/-- A configuration whose only credential is a language-model key. -/
def cfgWithKey : Config := { openai_api_key := "sk-demo" }

/-- An environment with SMTP configured whose send attempt fails,
modelling `smtplib` raising. -/
def failingEmailEnv : ExecEnv :=
  { cfg := { smtp_host := "smtp.example.com", smtp_user := "u", smtp_password := "p" }
    smtpSend := Except.error "connection refused" }

/-- An action already in a terminal state, with a stored result. -/
def finishedAction : Action :=
  { id := "a1", type := ActionType.custom, description := "done already",
    status := ActionStatus.completed,
    result := some [("status", Value.str "completed")] }

/-- Mutual exclusivity of outcome fields on a terminal action: COMPLETED
iff `result` is set, FAILED iff `error` is set. -/
def exclusiveOutcome (x : Action) : Prop :=
  (x.status = ActionStatus.completed ↔ x.result ≠ none) ∧
  (x.status = ActionStatus.failed ↔ x.error ≠ none)

/-- A logger constructed on day 0. -/
def demoLogger : ActivityLogger := { day := 0 }

/-- The state in which no day's log file exists. -/
def noFiles : LogFiles := fun _ => none

theorem executeWith_terminal (d : Action → Except String ResultMap) (a : Action) :
    (executeWith d a).1.status = ActionStatus.completed ∨
    (executeWith d a).1.status = ActionStatus.failed := by
  unfold executeWith
  cases hd : d { a with status := ActionStatus.executing, executed_at := some 0 } <;>
    simp [hd]

theorem fallback_mem (cfg : Config) (prompt : String) (a : Action)
    (h : a ∈ PromptProcessor.process_fallback cfg prompt) :
    a = emailFallbackAction prompt ∨ a = slackFallbackAction cfg prompt ∨
    a = crmFallbackAction prompt ∨ a = reportFallbackAction prompt ∨
    a = summarizeFallbackAction prompt ∨ a = customFallbackAction prompt := by
  simp only [PromptProcessor.process_fallback] at h
  cases he : emailCond (strLower prompt) <;> cases hs : slackCond (strLower prompt) <;>
    cases hc : crmCond (strLower prompt) <;> cases hr : reportCond (strLower prompt) <;>
    cases hm : summarizeCond (strLower prompt) <;>
    simp [he, hs, hc, hr, hm] at h <;> tauto

theorem fallback_fields (cfg : Config) (prompt : String) (a : Action)
    (h : a ∈ PromptProcessor.process_fallback cfg prompt) :
    a.status = ActionStatus.pending ∧ a.result = none ∧ a.error = none := by
  rcases fallback_mem cfg prompt a h with h | h | h | h | h | h <;> subst h <;>
    exact ⟨rfl, rfl, rfl⟩

theorem validateItems_fields (a : Action) (items : List RawAction) :
    ∀ acts : List Action, validateItems items = some acts → a ∈ acts →
    a.status = ActionStatus.pending ∧ a.result = none ∧ a.error = none := by
  induction items with
  | nil =>
    intro acts hv ha
    simp [validateItems] at hv
    subst hv
    simp at ha
  | cons item rest ih =>
    intro acts hv ha
    unfold validateItems at hv
    cases ht : actionTypeOfString item.type_str with
    | none => simp [ht] at hv
    | some t =>
      rw [ht] at hv
      cases hr : validateItems rest with
      | none => simp [hr] at hv
      | some acts0 =>
        rw [hr] at hv
        simp at hv
        subst hv
        rcases List.mem_cons.mp ha with h | h
        · subst h; exact ⟨rfl, rfl, rfl⟩
        · exact ih acts0 hr h

theorem process_fields (cfg : Config) (llm : LLMOutcome) (prompt : String)
    (a : Action) (h : a ∈ PromptProcessor.process cfg llm prompt) :
    a.status = ActionStatus.pending ∧ a.result = none ∧ a.error = none := by
  unfold PromptProcessor.process at h
  split at h
  · exact fallback_fields cfg prompt a h
  · cases llm with
    | failure m => exact fallback_fields cfg prompt a h
    | parsed items =>
      simp only at h
      cases hv : validateItems items with
      | none =>
        rw [hv] at h
        exact fallback_fields cfg prompt a h
      | some acts =>
        rw [hv] at h
        exact validateItems_fields a items acts hv h

theorem fallback_ne_nil (cfg : Config) (prompt : String) :
    PromptProcessor.process_fallback cfg prompt ≠ [] := by
  simp only [PromptProcessor.process_fallback]
  cases he : emailCond (strLower prompt) <;> cases hs : slackCond (strLower prompt) <;>
    cases hc : crmCond (strLower prompt) <;> cases hr : reportCond (strLower prompt) <;>
    cases hm : summarizeCond (strLower prompt) <;>
    simp [he, hs, hc, hr, hm]

theorem dispatch_unconfigured_simulated (env : ExecEnv) (a : Action)
    (h : adapterUnconfigured env.cfg a.type = true) :
    ∃ r, dispatch env a = Except.ok r ∧
      r.lookup "status" = some (Value.str "simulated") := by
  unfold dispatch
  cases hty : a.type <;> rw [hty] at h <;> simp only [adapterUnconfigured] at h
  case crm_update =>
    have hd : CRMIntegration.execute env.cfg a = Except.ok
        [("status", Value.str "simulated"),
         ("message", Value.str "CRM action simulated (no credentials configured)"),
         ("action", Value.str (getParam a "action" "update")),
         ("details", Value.str (getParam a "details" ""))] := by
      simp only [CRMIntegration.execute]
      rw [if_pos h]
    exact ⟨_, hd, rfl⟩
  case send_email =>
    have hd : EmailIntegration.execute env.cfg env.smtpSend a = Except.ok
        [("status", Value.str "simulated"),
         ("message", Value.str ("Email simulated (no SMTP configured): " ++
            getParam a "subject" "ProSprint AI Notification" ++ " to " ++
            getParam a "recipient" "")),
         ("recipient", Value.str (getParam a "recipient" "")),
         ("subject", Value.str (getParam a "subject" "ProSprint AI Notification"))] := by
      simp only [EmailIntegration.execute]
      rw [if_pos h]
    exact ⟨_, hd, rfl⟩
  case slack_post =>
    have hd : SlackIntegration.execute env.cfg a = Except.ok
        [("status", Value.str "simulated"),
         ("message", Value.str ("Slack message simulated (no token configured): " ++
            getParam a "message" "" ++ " to " ++
            getParam a "channel" env.cfg.slack_channel)),
         ("channel", Value.str (getParam a "channel" env.cfg.slack_channel)),
         ("text", Value.str (getParam a "message" ""))] := by
      simp only [SlackIntegration.execute]
      rw [if_pos h]
    exact ⟨_, hd, rfl⟩
  case draft_report =>
    have hd : DocumentIntegration.draft_report env.cfg env.draftOracle a = Except.ok
        [("status", Value.str "simulated"),
         ("report", Value.str (getParam a "content" ""))] := by
      simp only [DocumentIntegration.draft_report]
      rw [if_pos h]
    exact ⟨_, hd, rfl⟩
  case summarize_document =>
    have hd : DocumentIntegration.summarize env.cfg env.summarizeOracle a = Except.ok
        [("status", Value.str "simulated"),
         ("summary", Value.str (getParam a "text" ""))] := by
      simp only [DocumentIntegration.summarize]
      rw [if_pos h]
    exact ⟨_, hd, rfl⟩
  case custom => cases h

/-- C1: an Action whose `result` and `error` are null (as every
processor-created Action's are) ends `ActionExecutor.execute` in a
terminal status with exactly one of the two fields non-null — COMPLETED
iff `result` is set, FAILED iff `error` is set — and every Action
produced by `PromptProcessor.process` has never been terminal and
carries both fields null. -/
theorem claim1_result_error_exclusive (d : Action → Except String ResultMap)
    (a : Action) (h1 : a.result = none) (h2 : a.error = none) :
    exclusiveOutcome (executeWith d a).1 ∧
    ((executeWith d a).1.status = ActionStatus.completed ∨
      (executeWith d a).1.status = ActionStatus.failed) ∧
    (∀ cfg llm prompt, ∀ b ∈ PromptProcessor.process cfg llm prompt,
      b.status ≠ ActionStatus.completed ∧ b.status ≠ ActionStatus.failed ∧
      b.result = none ∧ b.error = none) := by
  refine ⟨?_, executeWith_terminal d a, ?_⟩
  · unfold exclusiveOutcome executeWith
    cases hd : d { a with status := ActionStatus.executing, executed_at := some 0 } <;>
      simp only [hd] <;> simp [h1, h2]
  · intro cfg llm prompt b hb
    obtain ⟨hp, hr, he⟩ := process_fields cfg llm prompt b hb
    exact ⟨by simp [hp], by simp [hp], hr, he⟩

/-- Witness for C1 at a concrete executor run: the custom fallback
action of a demo prompt, executed against the unconfigured demo
environment. -/
theorem claim1_witness :
    exclusiveOutcome (executeWith (dispatch demoEnv) (customFallbackAction "hi")).1 ∧
    ((executeWith (dispatch demoEnv) (customFallbackAction "hi")).1.status = ActionStatus.completed ∨
      (executeWith (dispatch demoEnv) (customFallbackAction "hi")).1.status = ActionStatus.failed) ∧
    (∀ cfg llm prompt, ∀ b ∈ PromptProcessor.process cfg llm prompt,
      b.status ≠ ActionStatus.completed ∧ b.status ≠ ActionStatus.failed ∧
      b.result = none ∧ b.error = none) :=
  claim1_result_error_exclusive (dispatch demoEnv) (customFallbackAction "hi") rfl rfl

/-- C3: when the adapter an action's type dispatches to is missing its
required credentials, `ActionExecutor.execute` never raises: it returns
the action COMPLETED with a result whose `status` key is `simulated`
(the `custom` type dispatches to no adapter, so no credential condition
applies to it). -/
theorem claim3_unconfigured_simulated (env : ExecEnv) (a : Action)
    (h : adapterUnconfigured env.cfg a.type = true) :
    (ActionExecutor.execute env a).1.status = ActionStatus.completed ∧
    ∃ r, (ActionExecutor.execute env a).1.result = some r ∧
      r.lookup "status" = some (Value.str "simulated") := by
  obtain ⟨r, hd, hs⟩ := dispatch_unconfigured_simulated env
    { a with status := ActionStatus.executing, executed_at := some 0 } (by simpa using h)
  simp only [ActionExecutor.execute, executeWith, hd]
  exact ⟨trivial, r, rfl, hs⟩

/-- Witness for C3: an email fallback action executed against the
fully unconfigured demo environment. -/
theorem claim3_witness :
    (ActionExecutor.execute demoEnv (emailFallbackAction "hi")).1.status = ActionStatus.completed ∧
    ∃ r, (ActionExecutor.execute demoEnv (emailFallbackAction "hi")).1.result = some r ∧
      r.lookup "status" = some (Value.str "simulated") :=
  claim3_unconfigured_simulated demoEnv (emailFallbackAction "hi") rfl

/-- C10: a `custom` action reaches COMPLETED with exactly the fixed
result mapping of the executor's final branch, and the outcome does not
depend on the adapter environment at all — no adapter is invoked, so an
unconfigured system reports `completed`, not `simulated`, for it. -/
theorem claim10_custom_fixed_result (env env2 : ExecEnv) (a : Action)
    (h : a.type = ActionType.custom) :
    (ActionExecutor.execute env a).1.status = ActionStatus.completed ∧
    (ActionExecutor.execute env a).1.result =
      some [("status", Value.str "completed"),
            ("message", Value.str "Custom action executed")] ∧
    ActionExecutor.execute env a = ActionExecutor.execute env2 a := by
  unfold ActionExecutor.execute executeWith dispatch
  simp [h]

/-- Witness for C10: the custom fallback action under two different
environments (unconfigured, and configured with a failing SMTP). -/
theorem claim10_witness :
    (ActionExecutor.execute demoEnv (customFallbackAction "hi")).1.status = ActionStatus.completed ∧
    (ActionExecutor.execute demoEnv (customFallbackAction "hi")).1.result =
      some [("status", Value.str "completed"),
            ("message", Value.str "Custom action executed")] ∧
    ActionExecutor.execute demoEnv (customFallbackAction "hi") =
      ActionExecutor.execute failingEmailEnv (customFallbackAction "hi") :=
  claim10_custom_fixed_result demoEnv failingEmailEnv (customFallbackAction "hi") rfl

/-- C4: `execute_batch` over any dispatch behavior returns exactly the
per-action execution results, in the input order and of the input
length, with the log entries written in that same order; every action
of the batch reaches a terminal status (COMPLETED or FAILED), so one
action's failure neither blocks nor skips any later action. -/
theorem claim4_batch_isolation (d : Action → Except String ResultMap)
    (actions : List Action) :
    (execute_batchWith d actions).1 = actions.map (fun a => (executeWith d a).1) ∧
    (execute_batchWith d actions).2 = actions.map (fun a => (executeWith d a).2) ∧
    (execute_batchWith d actions).1.length = actions.length ∧
    ∀ b ∈ (execute_batchWith d actions).1,
      b.status = ActionStatus.completed ∨ b.status = ActionStatus.failed := by
  induction actions with
  | nil => simp [execute_batchWith]
  | cons a rest ih =>
    obtain ⟨h1, h2, h3, h4⟩ := ih
    refine ⟨by simp [execute_batchWith, h1], by simp [execute_batchWith, h2],
      by simp [execute_batchWith, h3], ?_⟩
    intro b hb
    simp only [execute_batchWith] at hb
    rcases List.mem_cons.mp hb with hb | hb
    · exact hb ▸ executeWith_terminal d a
    · exact h4 b hb

/-- Witness for C4 at a concrete two-action batch whose first action
fails (configured SMTP raising) while the second still completes. -/
theorem claim4_witness :
    (execute_batchWith (dispatch failingEmailEnv)
        [emailFallbackAction "x", customFallbackAction "y"]).1 =
      [emailFallbackAction "x", customFallbackAction "y"].map
        (fun a => (executeWith (dispatch failingEmailEnv) a).1) ∧
    (execute_batchWith (dispatch failingEmailEnv)
        [emailFallbackAction "x", customFallbackAction "y"]).2 =
      [emailFallbackAction "x", customFallbackAction "y"].map
        (fun a => (executeWith (dispatch failingEmailEnv) a).2) ∧
    (execute_batchWith (dispatch failingEmailEnv)
        [emailFallbackAction "x", customFallbackAction "y"]).1.length =
      ([emailFallbackAction "x", customFallbackAction "y"] : List Action).length ∧
    ∀ b ∈ (execute_batchWith (dispatch failingEmailEnv)
        [emailFallbackAction "x", customFallbackAction "y"]).1,
      b.status = ActionStatus.completed ∨ b.status = ActionStatus.failed :=
  claim4_batch_isolation (dispatch failingEmailEnv)
    [emailFallbackAction "x", customFallbackAction "y"]

/-- C5: for a prompt whose lowercasing matches the email keyword group
("email", or "send" together with "mail") and no language model
configured, `process` yields at least one SEND_EMAIL action whose
`body` parameter is the original prompt text. -/
theorem claim5_email_keyword (cfg : Config) (llm : LLMOutcome) (prompt : String)
    (hk : truthy cfg.openai_api_key = false)
    (hc : emailCond (strLower prompt) = true) :
    ∃ a ∈ PromptProcessor.process cfg llm prompt,
      a.type = ActionType.send_email ∧
      a.parameters.lookup "body" = some prompt := by
  have hp : PromptProcessor.process cfg llm prompt =
      PromptProcessor.process_fallback cfg prompt := by
    unfold PromptProcessor.process
    rw [hk]
    rfl
  rw [hp]
  refine ⟨emailFallbackAction prompt, ?_, rfl, rfl⟩
  simp [PromptProcessor.process_fallback, hc]

/-- Witness for C5: the spec's scenario prompt, under the empty
configuration. -/
theorem claim5_witness :
    ∃ a ∈ PromptProcessor.process {} (LLMOutcome.failure "no client")
        "Send an email to john@example.com about Q4",
      a.type = ActionType.send_email ∧
      a.parameters.lookup "body" =
        some "Send an email to john@example.com about Q4" :=
  claim5_email_keyword {} (LLMOutcome.failure "no client")
    "Send an email to john@example.com about Q4" rfl (by decide)

/-- C6: the five keyword groups are checked independently — the
fallback result has exactly one action per matched group (so `k`
matches yield `k` actions), and a prompt matching no group yields
exactly the one CUSTOM action carrying the original prompt under the
`prompt` parameter. -/
theorem claim6_group_counts (cfg : Config) (prompt : String) :
    (numMatched (strLower prompt) ≠ 0 →
      (PromptProcessor.process_fallback cfg prompt).length = numMatched (strLower prompt)) ∧
    ((PromptProcessor.process_fallback cfg prompt).countP
        (fun a => a.type == ActionType.send_email) =
      (if emailCond (strLower prompt) then 1 else 0)) ∧
    ((PromptProcessor.process_fallback cfg prompt).countP
        (fun a => a.type == ActionType.slack_post) =
      (if slackCond (strLower prompt) then 1 else 0)) ∧
    ((PromptProcessor.process_fallback cfg prompt).countP
        (fun a => a.type == ActionType.crm_update) =
      (if crmCond (strLower prompt) then 1 else 0)) ∧
    ((PromptProcessor.process_fallback cfg prompt).countP
        (fun a => a.type == ActionType.draft_report) =
      (if reportCond (strLower prompt) then 1 else 0)) ∧
    ((PromptProcessor.process_fallback cfg prompt).countP
        (fun a => a.type == ActionType.summarize_document) =
      (if summarizeCond (strLower prompt) then 1 else 0)) ∧
    (numMatched (strLower prompt) = 0 →
      PromptProcessor.process_fallback cfg prompt = [customFallbackAction prompt]) ∧
    (customFallbackAction prompt).parameters.lookup "prompt" = some prompt := by
  cases he : emailCond (strLower prompt) <;> cases hs : slackCond (strLower prompt) <;>
    cases hc : crmCond (strLower prompt) <;> cases hr : reportCond (strLower prompt) <;>
    cases hm : summarizeCond (strLower prompt) <;>
    simp [PromptProcessor.process_fallback, numMatched, he, hs, hc, hr, hm,
      emailFallbackAction, slackFallbackAction, crmFallbackAction,
      reportFallbackAction, summarizeFallbackAction, customFallbackAction]

/-- Witness for C6 at a concrete two-group prompt and a concrete
no-group prompt (the hypotheses of the two implications are discharged
on opposite sides). -/
theorem claim6_witness :
    PromptProcessor.process_fallback {} "qqq" = [customFallbackAction "qqq"] ∧
    (PromptProcessor.process_fallback {} "email report").length =
      numMatched (strLower "email report") :=
  ⟨(claim6_group_counts {} "qqq").2.2.2.2.2.2.1 (by decide),
   (claim6_group_counts {} "email report").1 (by decide)⟩

/-- C2 counterexample: with a language model configured and a response
parsing as the empty JSON array, `process` returns the empty list even
for an email prompt — "always returns at least one Action" fails on the
successful-parse path (the orchestrator even guards `if not actions`). -/
theorem claim2_counterexample :
    PromptProcessor.process cfgWithKey (LLMOutcome.parsed []) "Send an email to john" = [] :=
  rfl

theorem validateItems_length (items : List RawAction) :
    ∀ acts, validateItems items = some acts → acts.length = items.length := by
  induction items with
  | nil =>
    intro acts hv
    simp [validateItems] at hv
    subst hv
    rfl
  | cons item rest ih =>
    intro acts hv
    unfold validateItems at hv
    cases ht : actionTypeOfString item.type_str with
    | none => simp [ht] at hv
    | some t =>
      rw [ht] at hv
      cases hr : validateItems rest with
      | none => simp [hr] at hv
      | some acts0 =>
        rw [hr] at hv
        simp at hv
        subst hv
        simp [ih acts0 hr]

/-- C2 (amended): `process` is total (the embedding is a function, the
source swallows every primary-path exception), every returned Action
has status PENDING, and each failure of the language-model path — no
client, failed call/parse, or type-validation failure — lands in the
fallback, which always returns at least one Action; a successful parse
instead yields exactly one Action per array element, which is empty for
an empty array. -/
theorem claim2_process_pending_fallback (cfg : Config) (llm : LLMOutcome)
    (prompt : String) :
    (∀ a ∈ PromptProcessor.process cfg llm prompt, a.status = ActionStatus.pending) ∧
    PromptProcessor.process_fallback cfg prompt ≠ [] ∧
    (truthy cfg.openai_api_key = false →
      PromptProcessor.process cfg llm prompt = PromptProcessor.process_fallback cfg prompt) ∧
    (∀ m, llm = LLMOutcome.failure m →
      PromptProcessor.process cfg llm prompt = PromptProcessor.process_fallback cfg prompt) ∧
    (∀ items, llm = LLMOutcome.parsed items → validateItems items = none →
      PromptProcessor.process cfg llm prompt = PromptProcessor.process_fallback cfg prompt) ∧
    (∀ items acts, llm = LLMOutcome.parsed items → validateItems items = some acts →
      truthy cfg.openai_api_key = true →
      PromptProcessor.process cfg llm prompt = acts ∧ acts.length = items.length) := by
  refine ⟨?_, fallback_ne_nil cfg prompt, ?_, ?_, ?_, ?_⟩
  · intro a ha
    exact (process_fields cfg llm prompt a ha).1
  · intro hk
    unfold PromptProcessor.process
    rw [hk]
    rfl
  · intro m hm
    subst hm
    unfold PromptProcessor.process
    cases hk : truthy cfg.openai_api_key <;> simp [hk]
  · intro items hm hv
    subst hm
    unfold PromptProcessor.process
    cases hk : truthy cfg.openai_api_key <;> simp [hk, hv]
  · intro items acts hm hv hk
    subst hm
    refine ⟨?_, validateItems_length items acts hv⟩
    unfold PromptProcessor.process
    simp [hk, hv]

/-- Witness for C2 at concrete inputs: the failure path on an empty
configuration. -/
theorem claim2_witness :
    (∀ a ∈ PromptProcessor.process {} (LLMOutcome.failure "boom") "hello",
      a.status = ActionStatus.pending) ∧
    PromptProcessor.process_fallback {} "hello" ≠ [] ∧
    (truthy (Config.openai_api_key {}) = false →
      PromptProcessor.process {} (LLMOutcome.failure "boom") "hello" =
        PromptProcessor.process_fallback {} "hello") ∧
    (∀ m, LLMOutcome.failure "boom" = LLMOutcome.failure m →
      PromptProcessor.process {} (LLMOutcome.failure "boom") "hello" =
        PromptProcessor.process_fallback {} "hello") ∧
    (∀ items, LLMOutcome.failure "boom" = LLMOutcome.parsed items →
      validateItems items = none →
      PromptProcessor.process {} (LLMOutcome.failure "boom") "hello" =
        PromptProcessor.process_fallback {} "hello") ∧
    (∀ items acts, LLMOutcome.failure "boom" = LLMOutcome.parsed items →
      validateItems items = some acts →
      truthy (Config.openai_api_key {}) = true →
      PromptProcessor.process {} (LLMOutcome.failure "boom") "hello" = acts ∧
        acts.length = items.length) :=
  claim2_process_pending_fallback {} (LLMOutcome.failure "boom") "hello"

/-- C7: when approval is declined every action of the run is returned
CANCELLED with `result` and `error` still null, zero log entries are
written, and the whole outcome is independent of the adapter
environment — the executor, hence every adapter, is never invoked. -/
theorem claim7_decline_cancels_all (cfg : Config) (llm : LLMOutcome)
    (env env2 : ExecEnv) (prompt : String) :
    (∀ a ∈ (ProSprintAI.process_prompt cfg llm env prompt false false).1,
      a.status = ActionStatus.cancelled ∧ a.result = none ∧ a.error = none) ∧
    (ProSprintAI.process_prompt cfg llm env prompt false false).2 = [] ∧
    ProSprintAI.process_prompt cfg llm env prompt false false =
      ProSprintAI.process_prompt cfg llm env2 prompt false false := by
  unfold ProSprintAI.process_prompt
  cases hq : (PromptProcessor.process cfg llm prompt).isEmpty <;> simp [hq]
  intro b hb
  obtain ⟨hstat, hres, herr⟩ := process_fields cfg llm prompt b hb
  simp [hres, herr]

/-- Witness for C7 at a concrete declined run. -/
theorem claim7_witness :
    (∀ a ∈ (ProSprintAI.process_prompt {} (LLMOutcome.failure "x") demoEnv
        "send the email" false false).1,
      a.status = ActionStatus.cancelled ∧ a.result = none ∧ a.error = none) ∧
    (ProSprintAI.process_prompt {} (LLMOutcome.failure "x") demoEnv
      "send the email" false false).2 = [] ∧
    ProSprintAI.process_prompt {} (LLMOutcome.failure "x") demoEnv
        "send the email" false false =
      ProSprintAI.process_prompt {} (LLMOutcome.failure "x") failingEmailEnv
        "send the email" false false :=
  claim7_decline_cancels_all {} (LLMOutcome.failure "x") demoEnv failingEmailEnv
    "send the email"

/-- C9 counterexample: `execute` places no guard on the current status —
run on an already COMPLETED action it assigns EXECUTING first, a
transition the state machine forbids out of a terminal status, and it
mutates the action after its terminal state. -/
theorem claim9_counterexample :
    terminalStatus finishedAction.status = true ∧
    (executeStatusTrace (dispatch demoEnv) finishedAction).head? =
      some ActionStatus.executing ∧
    stepAllowed finishedAction.status ActionStatus.executing = false ∧
    (executeWith (dispatch demoEnv) finishedAction).1 ≠ finishedAction := by
  refine ⟨rfl, rfl, rfl, ?_⟩
  decide

/-- C9 (amended): over a single orchestrator run — where each Action is
executed at most once — every Action's status history follows the §4.5
machine (PENDING → EXECUTING → COMPLETED/FAILED, or PENDING →
CANCELLED), each step forward-only, and a terminal status is only ever
the last one assigned; the unamended claim fails because `execute`
itself does not guard against re-invocation on a terminal action. -/
theorem claim9_run_monotone (cfg : Config) (llm : LLMOutcome) (env : ExecEnv)
    (prompt : String) (autoApprove userApproves : Bool)
    (hist : List ActionStatus)
    (h : hist ∈ runStatusHistories cfg llm env prompt autoApprove userApproves) :
    List.Chain' (fun s t => stepAllowed s t = true) hist ∧
    ∀ s ∈ hist.dropLast, terminalStatus s = false := by
  simp only [runStatusHistories] at h
  split at h
  · simp at h
  · split at h
    · simp only [List.mem_map] at h
      obtain ⟨b, hb, rfl⟩ := h
      rw [(process_fields cfg llm prompt b hb).1]
      refine ⟨List.chain'_cons.mpr ⟨rfl, List.chain'_singleton _⟩, ?_⟩
      intro s hs
      simp at hs
      subst hs
      rfl
    · simp only [List.mem_map] at h
      obtain ⟨b, hb, rfl⟩ := h
      rw [(process_fields cfg llm prompt b hb).1]
      unfold executeStatusTrace
      rcases executeWith_terminal (dispatch env) b with ht | ht <;> rw [ht] <;>
        exact ⟨List.chain'_cons.mpr ⟨rfl, List.chain'_cons.mpr ⟨rfl, List.chain'_singleton _⟩⟩,
          by intro s hs; simp at hs; rcases hs with hs | hs <;> subst hs <;> rfl⟩

/-- Witness for C9 (amended) at a concrete approved run. -/
theorem claim9_witness :
    List.Chain' (fun s t => stepAllowed s t = true)
      [ActionStatus.pending, ActionStatus.executing, ActionStatus.completed] ∧
    ∀ s ∈ ([ActionStatus.pending, ActionStatus.executing,
        ActionStatus.completed] : List ActionStatus).dropLast,
      terminalStatus s = false :=
  claim9_run_monotone {} (LLMOutcome.failure "x") demoEnv "send the email"
    true true _ (by decide)

/-- C8: at the failing input `limit = 0` with the day's file holding one
record, `get_recent_logs` returns that record (Python `logs[-0:]` is the
whole list) instead of the empty sequence the contract requires; the
same-day scenario with `limit = 1` behaves as claimed, the logged
record's action id matches, and an absent file yields the empty
sequence. -/
theorem claim8_limit_zero_returns_all :
    ActivityLogger.get_recent_logs demoLogger
        (ActivityLogger.log_action demoLogger noFiles (customFallbackAction "note")) 0 =
      [logEntryOf (customFallbackAction "note")] ∧
    (logEntryOf (customFallbackAction "note")).action_id = (customFallbackAction "note").id ∧
    ActivityLogger.get_recent_logs demoLogger
        (ActivityLogger.log_action demoLogger noFiles (customFallbackAction "note")) 1 =
      [logEntryOf (customFallbackAction "note")] ∧
    ActivityLogger.get_recent_logs demoLogger noFiles 5 = [] :=
  ⟨rfl, rfl, rfl, rfl⟩

end ProSprint
